import Mathlib

/-!
Verification of the Azure storage client (vendored `storage/client.go`).

This file gives a shallow embedding of the retrying sender, the response
classifier, the error decoders and the multipart batch parser of the
storage package, and proves the specified properties about them.

Modelling conventions:
* machine integers are `Nat`;
* Go errors become `Option`/`Except` values;
* outcomes of the standard-library calls that are external to the
  repository (the HTTP transport, `json.Unmarshal`, `xml.Unmarshal`,
  `mime.ParseMediaType`, `multipart.Reader.NextPart`, `http.ReadResponse`)
  are carried as data on the input, so that the control flow of the
  repository code — which treats those calls as opaque — is embedded
  line by line.
-/

namespace Storage

/-! ### DefaultSender (client.go lines 97-123) -/

/-- Outcome of one call of `c.HTTPClient.Do`: either a transport-level
error, or a completed response with a status code. -/
inductive AttemptOutcome
  | transportFailure (msg : String)
  | response (status : Nat)
deriving DecidableEq, Repr

/-- `DefaultSender` retry configuration (client.go lines 99-104).
`RetryDuration` is a duration in nanoseconds; it scales the backoff and
does not influence control flow. -/
structure DefaultSender where
  RetryAttempts : Nat
  RetryDuration : Nat
  ValidStatusCodes : List Nat

/-- The loop condition of `DefaultSender.Send`: the attempt is retried
when the transport did not fail and the status code is in the transient
set (`autorest.ResponseHasStatusCode(resp, ds.ValidStatusCodes...)`). -/
def isTransient (valid : List Nat) : AttemptOutcome → Bool
  | .transportFailure _ => false
  | .response s => valid.contains s

/-- Observable result of `DefaultSender.Send`: how many transport
attempts (`Do` calls) were issued, how many backoff sleeps
(`DelayForBackoff` calls) happened, and the outcome finally returned. -/
structure SendResult where
  attemptsMade : Nat
  sleeps : Nat
  final : Option AttemptOutcome
deriving DecidableEq, Repr

/-- The `for attempts := 0; attempts < ds.RetryAttempts; attempts++` loop
of `DefaultSender.Send` (client.go lines 109-120), with `fuel` the number
of remaining loop iterations and `i` the index of the next attempt.
A non-transient outcome (transport failure or status outside the
transient set) returns immediately; a transient outcome sleeps
(`autorest.DelayForBackoff`) and iterates. -/
def sendLoop (valid : List Nat) (o : Nat → AttemptOutcome) :
    Nat → Nat → Nat → Nat → Option AttemptOutcome → SendResult
  | _, 0, made, sleeps, last => ⟨made, sleeps, last⟩
  | i, fuel + 1, made, sleeps, _ =>
    let out := o i
    if isTransient valid out then
      sendLoop valid o (i + 1) fuel (made + 1) (sleeps + 1) (some out)
    else
      ⟨made + 1, sleeps, some out⟩

/-- `DefaultSender.Send` (client.go lines 107-123), abstracted over the
sequence `o` of transport outcomes: attempt `i` of `HTTPClient.Do`
yields `o i`.  `rr.Prepare()` is external autorest code modelled as
succeeding. -/
def DefaultSender.Send (ds : DefaultSender) (o : Nat → AttemptOutcome) : SendResult :=
  sendLoop ds.ValidStatusCodes o 0 ds.RetryAttempts 0 0 none

/-- Number of transient outcomes among `o i, o (i+1), ..., o (i+n-1)`. -/
def countTransientFrom (valid : List Nat) (o : Nat → AttemptOutcome) : Nat → Nat → Nat
  | _, 0 => 0
  | i, n + 1 =>
    (if isTransient valid (o i) then 1 else 0) + countTransientFrom valid o (i + 1) n

/-! ### Error records and decoders (client.go lines 160-189, 825-854) -/

/-- `AzureStorageServiceError` (client.go lines 163-175). -/
structure AzureStorageServiceError where
  Code : String
  Message : String
  AuthenticationErrorDetail : String
  QueryParameterName : String
  QueryParameterValue : String
  Reason : String
  Lang : String
  StatusCode : Nat
  RequestID : String
  Date : String
  APIVersion : String
deriving DecidableEq, Repr

/-- The Go zero value of `AzureStorageServiceError`. -/
def AzureStorageServiceError.zero : AzureStorageServiceError :=
  ⟨"", "", "", "", "", "", "", 0, "", "", ""⟩

/-- `odataErrorMessage` (client.go lines 177-180). -/
structure odataErrorMessage where
  Lang : String
  Value : String
deriving DecidableEq, Repr

/-- `odataError` (client.go lines 182-185). -/
structure odataError where
  Code : String
  Message : odataErrorMessage
deriving DecidableEq, Repr

/-- `odataErrorWrapper` (client.go lines 187-189): the envelope decoded
from an OData `odata.error` JSON body. -/
structure odataErrorWrapper where
  Err : odataError
deriving DecidableEq, Repr

/-- The Go zero value of `odataErrorWrapper`. -/
def odataErrorWrapper.zero : odataErrorWrapper := ⟨⟨"", ⟨"", ""⟩⟩⟩

/-- The six XML-tagged fields that `xml.Unmarshal` writes into an
`AzureStorageServiceError` (client.go lines 164-169). -/
structure XmlErrorFields where
  Code : String
  Message : String
  AuthenticationErrorDetail : String
  QueryParameterName : String
  QueryParameterValue : String
  Reason : String
deriving DecidableEq, Repr

/-- Writing decoded XML fields into an existing error record, as
`xml.Unmarshal(body, storageErr)` does. -/
def applyXmlFields (f : XmlErrorFields) (e : AzureStorageServiceError) :
    AzureStorageServiceError :=
  { e with
    Code := f.Code
    Message := f.Message
    AuthenticationErrorDetail := f.AuthenticationErrorDetail
    QueryParameterName := f.QueryParameterName
    QueryParameterValue := f.QueryParameterValue
    Reason := f.Reason }

/-- A response body: its raw text together with the outcomes of the two
standard-library decoders the client may run over it.  `jsonOData` is the
outcome of `json.Unmarshal(text, &odataErrorWrapper)`; `xmlStorage` is the
outcome of `xml.Unmarshal(text, &AzureStorageServiceError)`.  An `error`
value holds the diagnostic text of the decoder. -/
structure RawBody where
  text : String
  jsonOData : Except String odataErrorWrapper
  xmlStorage : Except String XmlErrorFields
deriving Repr

/-- The fallback message built by `serviceErrFromXML` and
`serviceErrFromJSON` when the decoder fails (client.go lines 827, 836). -/
def unmarshalFailMessage (diag : String) (bodyText : String) : String :=
  "Response body could no be unmarshaled: " ++ diag ++ ". Body: " ++ bodyText ++ "."

/-- `serviceErrFromXML` (client.go lines 825-831): on decoder failure the
message embeds the diagnostic and the raw body, and the decode error is
returned; on success the decoded fields are written into the record. -/
def serviceErrFromXML (body : RawBody) (storageErr : AzureStorageServiceError) :
    AzureStorageServiceError × Option String :=
  match body.xmlStorage with
  | .error e => ({ storageErr with Message := unmarshalFailMessage e body.text }, some e)
  | .ok f => (applyXmlFields f storageErr, none)

/-- `serviceErrFromJSON` (client.go lines 833-843). -/
def serviceErrFromJSON (body : RawBody) (storageErr : AzureStorageServiceError) :
    AzureStorageServiceError × Option String :=
  match body.jsonOData with
  | .error e => ({ storageErr with Message := unmarshalFailMessage e body.text }, some e)
  | .ok w =>
    ({ storageErr with
        Code := w.Err.Code
        Message := w.Err.Message.Value
        Lang := w.Err.Message.Lang }, none)

/-- `serviceErrFromStatusCode` (client.go lines 845-854). -/
def serviceErrFromStatusCode (code : Nat) (status : String)
    (requestID date version : String) : AzureStorageServiceError :=
  { AzureStorageServiceError.zero with
    StatusCode := code
    Code := status
    RequestID := requestID
    Date := date
    APIVersion := version
    Message := "no response body was available for error status code" }

/-! ### Response classification (client.go lines 612-726, 880-885) -/

/-- The response headers the classifier reads.  `contentType` is
`Header.Get("Content-Type")`, the empty string when the header is absent;
the other three fields are the debug headers. -/
structure Headers where
  contentType : String
  requestID : String
  version : String
  date : String
deriving DecidableEq, Repr

/-- `getDebugHeaders` (client.go lines 880-885): yields
`(requestID, date, version)` in that order. -/
def getDebugHeaders (h : Headers) : String × String × String :=
  (h.requestID, h.date, h.version)

/-- A completed HTTP response as handed to the classifier after
`Sender.Send`: status code, status line text (for example
`404 Not Found`), headers, and the body. -/
structure HttpResponse where
  statusCode : Nat
  status : String
  headers : Headers
  body : RawBody
deriving Repr

/-- A Go `error` value returned by the client: either a normalized
`AzureStorageServiceError`, or some other error (a raw decoder or
transport diagnostic) carrying only its message. -/
inductive GoError
  | storageError (e : AzureStorageServiceError)
  | rawError (msg : String)
deriving DecidableEq, Repr

/-- The state of the body reader handed back to the caller: either the
original stream passed through unread, or a fresh in-memory reader over
the given bytes after the original stream was fully consumed
(`ioutil.NopCloser(bytes.NewReader(respBody))`). -/
inductive BodyView
  | original (b : RawBody)
  | restored (bytes : String)
deriving Repr

/-- `storageResponse` (client.go lines 149-153). -/
structure storageResponse where
  statusCode : Nat
  headers : Headers
  body : BodyView
deriving Repr

/-- The response-classification part of `Client.exec` (client.go lines
641-683), applied to the completed response produced by `Sender.Send`.
Reading the body (`readAndCloseBody`) is modelled as succeeding, a
completed response body being a byte string. -/
def exec (resp : HttpResponse) : storageResponse × Option GoError :=
  if 400 ≤ resp.statusCode ∧ resp.statusCode ≤ 505 then
    let respBody := resp.body.text
    let (requestID, date, version) := getDebugHeaders resp.headers
    let err : GoError :=
      if respBody = "" then
        .storageError
          (serviceErrFromStatusCode resp.statusCode resp.status requestID date version)
      else
        let storageErr : AzureStorageServiceError :=
          { AzureStorageServiceError.zero with
            StatusCode := resp.statusCode
            RequestID := requestID
            Date := date
            APIVersion := version }
        let storageErr :=
          if resp.headers.contentType = "application/xml" then
            (serviceErrFromXML resp.body storageErr).1
          else
            (serviceErrFromJSON resp.body storageErr).1
        .storageError storageErr
    (⟨resp.statusCode, resp.headers, .restored respBody⟩, some err)
  else
    (⟨resp.statusCode, resp.headers, .original resp.body⟩, none)

/-- `odataResponse` (client.go lines 155-158). -/
structure odataResponse where
  statusCode : Nat
  headers : Headers
  body : BodyView
  odata : odataErrorWrapper
deriving Repr

/-- The response-handling part of `Client.execInternalJSONCommon`
(client.go lines 702-725), applied to the completed response produced by
`Sender.Send`.  On a failure status with a non-empty body the outcome of
`json.Unmarshal(respBody, &respToRet.odata)` is returned to the caller
as-is: a decode failure surfaces the raw decoder error. -/
def execInternalJSONCommon (resp : HttpResponse) : odataResponse × Option GoError :=
  let respToRet : odataResponse :=
    ⟨resp.statusCode, resp.headers, .original resp.body, odataErrorWrapper.zero⟩
  if 400 ≤ resp.statusCode ∧ resp.statusCode ≤ 505 then
    let respBody := resp.body.text
    let (requestID, date, version) := getDebugHeaders resp.headers
    if respBody = "" then
      (respToRet, some (.storageError
        (serviceErrFromStatusCode resp.statusCode resp.status requestID date version)))
    else
      match resp.body.jsonOData with
      | .error e => (respToRet, some (.rawError e))
      | .ok w => ({ respToRet with odata := w }, none)
  else
    (respToRet, none)

/-! ### Batch response parsing (client.go lines 733-814) -/

/-- The embedded HTTP response reconstructed by `http.ReadResponse` from
the bytes of the changeset part: its status code and its body. -/
structure EmbeddedResponse where
  statusCode : Nat
  body : RawBody
deriving Repr

/-- The inner changeset part; `readResponse` is the outcome of
`http.ReadResponse` over the bytes of this part. -/
structure InnerPart where
  readResponse : Except String EmbeddedResponse
deriving Repr

/-- The outer batch part.  `mediaParams` is the outcome of
`mime.ParseMediaType` on the Content-Type of this part; `nextPart` is
the outcome of reading the first part of the changeset multipart
document contained in this part. -/
structure BatchPart where
  contentType : String
  mediaParams : Except String (List (String × String))
  nextPart : Except String InnerPart
deriving Repr

/-- The bytes of the whole batch response body, with the outcome of
reading the first part of the outer multipart document. -/
structure BatchBody where
  text : String
  nextPart : Except String BatchPart
deriving Repr

/-- A completed batch response: the plain view handed to
`execInternalJSONCommon`, the multipart view of the same body bytes, and
the outcome of `mime.ParseMediaType` on the Content-Type header of the
response (assumed present; a missing Content-Type panics in the
source). -/
structure BatchHttpResponse where
  httpResp : HttpResponse
  batchBody : BatchBody
  mediaParams : Except String (List (String × String))
deriving Repr

/-- Indexing a Go map of media parameters: a missing key yields the zero
value of the string type. -/
def paramLookup (ps : List (String × String)) (k : String) : String :=
  (ps.lookup k).getD ""

/-- `genBatchReader` (client.go lines 796-814): read the first part of
the outer multipart document with the batch boundary, then obtain the
changeset boundary from the media parameters of the Content-Type of that
part. -/
def genBatchReader (batchBoundary : String) (respBody : BatchBody) :
    Except String (BatchPart × String) :=
  match respBody.nextPart with
  | .error e => .error e
  | .ok batchPart =>
    match batchPart.mediaParams with
    | .error e => .error e
    | .ok changesetHeader => .ok (batchPart, paramLookup changesetHeader "boundary")

/-- `genChangesetReader` (client.go lines 771-794): read the first part
of the changeset multipart document, reconstruct the embedded HTTP
response from its bytes (the `req` argument of the source only steers
body framing inside `http.ReadResponse` and is subsumed by the
`readResponse` outcome), and either keep the envelope untouched on
status 204 or decode the OData error body and overwrite the envelope
status. -/
def genChangesetReader (respToRet : odataResponse) (batchPartBuf : BatchPart)
    (changesetBoundary : String) : Except String odataResponse :=
  match batchPartBuf.nextPart with
  | .error e => .error e
  | .ok changesetPart =>
    match changesetPart.readResponse with
    | .error e => .error e
    | .ok changesetResp =>
      if changesetResp.statusCode ≠ 204 then
        match changesetResp.body.jsonOData with
        | .error e => .error e
        | .ok w =>
          .ok { respToRet with odata := w, statusCode := changesetResp.statusCode }
      else
        .ok respToRet

/-- `execBatchOperationJSON` (client.go lines 733-769), applied to the
completed batch response. -/
def execBatchOperationJSON (resp : BatchHttpResponse) : Except GoError odataResponse :=
  match execInternalJSONCommon resp.httpResp with
  | (_, some err) => .error err
  | (respToRet, none) =>
    match resp.mediaParams with
    | .error e => .error (.rawError e)
    | .ok batchHeader =>
      let batchBoundary := paramLookup batchHeader "boundary"
      match genBatchReader batchBoundary resp.batchBody with
      | .error e => .error (.rawError e)
      | .ok (batchPartBuf, changesetBoundary) =>
        match genChangesetReader respToRet batchPartBuf changesetBoundary with
        | .error e => .error (.rawError e)
        | .ok r => .ok r

/-! ### Account SAS token generation (client.go lines 390-546) -/

/-- A Go `time.Time` wall-clock value in UTC, at second granularity (the
SAS paths never read finer fields). -/
structure GoTime where
  year : Nat
  month : Nat
  day : Nat
  hour : Nat
  minute : Nat
  second : Nat
deriving DecidableEq, Repr

/-- The Go zero value `time.Time{}`: January 1 of year 1, 00:00:00 UTC. -/
def GoTime.zero : GoTime := ⟨1, 1, 1, 0, 0, 0⟩

/-- Decimal rendering zero-padded to two digits. -/
def pad2 (n : Nat) : String :=
  if n < 10 then "0" ++ toString n else toString n

/-- Decimal rendering zero-padded to four digits. -/
def pad4 (n : Nat) : String :=
  if n < 10 then "000" ++ toString n
  else if n < 100 then "00" ++ toString n
  else if n < 1000 then "0" ++ toString n
  else toString n

/-- `t.Format(time.RFC3339)` for a UTC time at second granularity. -/
def GoTime.formatRFC3339 (t : GoTime) : String :=
  pad4 t.year ++ "-" ++ pad2 t.month ++ "-" ++ pad2 t.day ++ "T" ++
    pad2 t.hour ++ ":" ++ pad2 t.minute ++ ":" ++ pad2 t.second ++ "Z"

/-- Go string slicing `s[:n]` (byte indexing; every string sliced by the
SAS code is ASCII, where bytes and characters coincide). -/
def goSlice (s : String) (n : Nat) : String :=
  String.mk (s.data.take n)

/-- Lexicographic comparison of character lists by code point. -/
def charListLt : List Char → List Char → Bool
  | [], [] => false
  | [], _ :: _ => true
  | _ :: _, [] => false
  | a :: as, b :: bs =>
    if a.toNat < b.toNat then true
    else if b.toNat < a.toNat then false
    else charListLt as bs

/-- The Go `<` operator on strings: lexicographic byte comparison, which
for well-formed UTF-8 equals lexicographic code-point comparison. -/
def goStringLt (a b : String) : Bool :=
  charListLt a.data b.data

/-- `Services` (client.go lines 405-410). -/
structure Services where
  Blob : Bool
  Queue : Bool
  Table : Bool
  File : Bool
deriving DecidableEq, Repr

/-- `ResourceTypes` (client.go lines 414-418). -/
structure ResourceTypes where
  Service : Bool
  Container : Bool
  Object : Bool
deriving DecidableEq, Repr

/-- `Permissions` (client.go lines 421-430). -/
structure Permissions where
  Read : Bool
  Write : Bool
  Delete : Bool
  List : Bool
  Add : Bool
  Create : Bool
  Update : Bool
  Process : Bool
deriving DecidableEq, Repr

/-- `AccountSASTokenOptions` (client.go lines 393-402). -/
structure AccountSASTokenOptions where
  APIVersion : String
  Services : Services
  ResourceTypes : ResourceTypes
  Permissions : Permissions
  Start : GoTime
  Expiry : GoTime
  IP : String
  UseHTTPS : Bool
deriving DecidableEq, Repr

/-- The part of `Client` that account SAS generation reads.  `hmac`
stands for `computeHmac256` closed over the decoded account key; the
primitive lives in util.go, outside the embedded file, and its value
does not influence control flow. -/
structure Client where
  accountName : String
  apiVersion : String
  hmac : String → String

/-- The services string built at client.go lines 444-456: one fixed
character per enabled service, in the order blob, queue, table, file. -/
def servicesString (s : Services) : String :=
  (if s.Blob then "b" else "") ++ (if s.Queue then "q" else "") ++
    (if s.Table then "t" else "") ++ (if s.File then "f" else "")

/-- The resources string built at client.go lines 459-468: service,
container, object. -/
def resourceTypesString (r : ResourceTypes) : String :=
  (if r.Service then "s" else "") ++ (if r.Container then "c" else "") ++
    (if r.Object then "o" else "")

/-- The permissions string built at client.go lines 471-495: read,
write, delete, list, add, create, update, process. -/
def permissionsString (p : Permissions) : String :=
  (if p.Read then "r" else "") ++ (if p.Write then "w" else "") ++
    (if p.Delete then "d" else "") ++ (if p.List then "l" else "") ++
    (if p.Add then "a" else "") ++ (if p.Create then "c" else "") ++
    (if p.Update then "u" else "") ++ (if p.Process then "p" else "")

/-- The start string built at client.go lines 498-503: empty for the
zero time, otherwise the RFC3339 rendering cut to its first ten bytes. -/
def startString (o : AccountSASTokenOptions) : String :=
  if o.Start ≠ GoTime.zero then goSlice o.Start.formatRFC3339 10 else ""

/-- The expiry string built at client.go lines 506-508. -/
def expiryString (o : AccountSASTokenOptions) : String :=
  goSlice o.Expiry.formatRFC3339 10

/-- The protocol string built at client.go lines 510-513. -/
def protocolString (o : AccountSASTokenOptions) : String :=
  if o.UseHTTPS then "https" else "https,http"

/-- The signing string built at client.go lines 515-526: the ordered
field list joined by newlines, ending in a trailing empty field. -/
def accountSASStringToSign (c : Client) (o : AccountSASTokenOptions) : String :=
  String.intercalate "\n"
    [c.accountName, permissionsString o.Permissions, servicesString o.Services,
      resourceTypesString o.ResourceTypes, startString o, expiryString o,
      o.IP, protocolString o, o.APIVersion, ""]

/-- The defaulting of `options.APIVersion` from the client at client.go
lines 435-437: an empty version falls back to the client version. -/
def effectiveOptions (c : Client) (o : AccountSASTokenOptions) : AccountSASTokenOptions :=
  if o.APIVersion = "" then { o with APIVersion := c.apiVersion } else o

/-- `Client.GetAccountSASToken` (client.go lines 434-546).  The result
pairs the token parameter list (the `url.Values`, as ordered key-value
pairs) with the optional error. -/
def GetAccountSASToken (c : Client) (o : AccountSASTokenOptions) :
    List (String × String) × Option String :=
  let o := effectiveOptions c o
  if goStringLt o.APIVersion "2015-04-05" then
    ([], some ("account SAS does not support API versions prior to 2015-04-05. API version : "
        ++ o.APIVersion))
  else
    let signature := c.hmac (accountSASStringToSign c o)
    let sasParams : List (String × String) :=
      [("sv", o.APIVersion), ("ss", servicesString o.Services),
        ("srt", resourceTypesString o.ResourceTypes),
        ("sp", permissionsString o.Permissions), ("se", expiryString o),
        ("spr", protocolString o), ("sig", signature)]
    let sasParams := if startString o ≠ "" then sasParams ++ [("st", startString o)] else sasParams
    let sasParams := if o.IP ≠ "" then sasParams ++ [("sip", o.IP)] else sasParams
    (sasParams, none)

/-- First value bound to a key in a token parameter list, `none` when
the key is absent. -/
def getParam : List (String × String) → String → Option String
  | [], _ => none
  | p :: rest, key => if p.1 = key then some p.2 else getParam rest key

/-- The canonical character of each service flag, in token order. -/
def enabledServiceChar (s : Services) : Char → Bool
  | 'b' => s.Blob
  | 'q' => s.Queue
  | 't' => s.Table
  | 'f' => s.File
  | _ => false

/-- The canonical character of each resource-type flag, in token order. -/
def enabledResourceChar (r : ResourceTypes) : Char → Bool
  | 's' => r.Service
  | 'c' => r.Container
  | 'o' => r.Object
  | _ => false

/-- The canonical character of each permission flag, in token order. -/
def enabledPermissionChar (p : Permissions) : Char → Bool
  | 'r' => p.Read
  | 'w' => p.Write
  | 'd' => p.Delete
  | 'l' => p.List
  | 'a' => p.Add
  | 'c' => p.Create
  | 'u' => p.Update
  | 'p' => p.Process
  | _ => false
/-! ### Concrete instances used by witnesses and counterexamples -/

/-- Concrete completed response used by witnesses: a 404 with empty
body and no content type. -/
def respW7 : HttpResponse :=
  ⟨404, "404 Not Found", ⟨"", "rid1", "2016-05-31", "Tue, 01 Nov 2016 00:00:00 GMT"⟩,
    ⟨"", .error "unexpected end of JSON input", .error "EOF"⟩⟩

/-- Concrete completed response with status 506. -/
def respW10 : HttpResponse :=
  ⟨506, "506 Variant Also Negotiates", ⟨"", "", "", ""⟩,
    ⟨"server error text", .error "invalid character", .error "syntax error"⟩⟩

/-- Concrete failure response whose non-empty body is not well-formed
JSON (nor XML): the decoder outcomes are the Go diagnostic strings. -/
def respC4 : HttpResponse :=
  ⟨400, "400 Bad Request",
    ⟨"application/json", "rid2", "2016-05-31", "Tue, 01 Nov 2016 00:00:00 GMT"⟩,
    ⟨"I am not JSON.", .error "invalid character I looking for beginning of value",
      .error "EOF"⟩⟩

/-- Concrete two-level batch response whose embedded response has status
204 and an empty body. -/
def batchRespW1 : BatchHttpResponse :=
  ⟨⟨202, "202 Accepted",
      ⟨"multipart/mixed; boundary=batchresponse_abc", "rid3", "2016-05-31", "Tue"⟩,
      ⟨"batch bytes", .error "invalid character b looking for beginning of value",
        .error "EOF"⟩⟩,
    ⟨"batch bytes",
      .ok ⟨"multipart/mixed; boundary=changesetresponse_abc",
        .ok [("boundary", "changesetresponse_abc")],
        .ok ⟨.ok ⟨204, ⟨"", .error "unexpected end of JSON input", .error "EOF"⟩⟩⟩⟩⟩,
    .ok [("boundary", "batchresponse_abc")]⟩

/-- Concrete client used by SAS witnesses. -/
def clientW : Client := ⟨"myaccount", "2016-05-31", fun _ => "signaturebytes"⟩

/-- Concrete SAS options: blob and table services, service and object
resources, four permissions, a non-zero start time and an IP range. -/
def optsW5 : AccountSASTokenOptions :=
  ⟨"2016-05-31", ⟨true, false, true, false⟩, ⟨true, false, true⟩,
    ⟨true, true, false, false, true, false, false, true⟩,
    ⟨2016, 11, 1, 3, 4, 5⟩, ⟨2017, 3, 9, 1, 2, 3⟩, "168.1.5.65", true⟩

/-- Concrete SAS options carrying an API version below the minimum. -/
def optsW9 : AccountSASTokenOptions :=
  ⟨"2013-08-15", ⟨true, false, false, false⟩, ⟨true, false, false⟩,
    ⟨true, false, false, false, false, false, false, false⟩,
    GoTime.zero, ⟨2017, 1, 1, 0, 0, 0⟩, "", true⟩

/-! ### Lemmas about the send loop -/

theorem sendLoop_attempts_ge (valid : List Nat) (o : Nat → AttemptOutcome) :
    ∀ fuel i made sleeps last,
      made ≤ (sendLoop valid o i fuel made sleeps last).attemptsMade := by
  intro fuel
  induction fuel with
  | zero => intro i made sleeps last; simp [sendLoop]
  | succ n ih =>
    intro i made sleeps last
    simp only [sendLoop]
    by_cases h : isTransient valid (o i) = true
    · simp only [h, if_true]
      exact le_trans (Nat.le_succ made) (ih (i + 1) (made + 1) (sleeps + 1) (some (o i)))
    · simp only [h]
      simp

theorem sendLoop_attempts_le (valid : List Nat) (o : Nat → AttemptOutcome) :
    ∀ fuel i made sleeps last,
      (sendLoop valid o i fuel made sleeps last).attemptsMade ≤ made + fuel := by
  intro fuel
  induction fuel with
  | zero => intro i made sleeps last; simp [sendLoop]
  | succ n ih =>
    intro i made sleeps last
    simp only [sendLoop]
    by_cases h : isTransient valid (o i) = true
    · simp only [h, if_true]
      calc (sendLoop valid o (i + 1) n (made + 1) (sleeps + 1) (some (o i))).attemptsMade
          ≤ made + 1 + n := ih (i + 1) (made + 1) (sleeps + 1) (some (o i))
        _ = made + (n + 1) := by omega
    · simp only [h]
      simp

theorem sendLoop_all_transient (valid : List Nat) (o : Nat → AttemptOutcome)
    (hall : ∀ i, isTransient valid (o i) = true) :
    ∀ fuel i made sleeps last,
      (sendLoop valid o i fuel made sleeps last).attemptsMade = made + fuel := by
  intro fuel
  induction fuel with
  | zero => intro i made sleeps last; simp [sendLoop]
  | succ n ih =>
    intro i made sleeps last
    simp only [sendLoop, hall i, if_true]
    rw [ih (i + 1) (made + 1) (sleeps + 1) (some (o i))]
    omega

theorem sendLoop_sleeps (valid : List Nat) (o : Nat → AttemptOutcome) :
    ∀ fuel i made sleeps last,
      (sendLoop valid o i fuel made sleeps last).sleeps
        = sleeps + countTransientFrom valid o i
            ((sendLoop valid o i fuel made sleeps last).attemptsMade - made) := by
  intro fuel
  induction fuel with
  | zero => intro i made sleeps last; simp [sendLoop, countTransientFrom]
  | succ n ih =>
    intro i made sleeps last
    simp only [sendLoop]
    by_cases h : isTransient valid (o i) = true
    · simp only [h, if_true]
      have hge := sendLoop_attempts_ge valid o n (i + 1) (made + 1) (sleeps + 1) (some (o i))
      have hk : (sendLoop valid o (i + 1) n (made + 1) (sleeps + 1) (some (o i))).attemptsMade - made
          = ((sendLoop valid o (i + 1) n (made + 1) (sleeps + 1)
              (some (o i))).attemptsMade - (made + 1)) + 1 := by omega
      rw [hk]
      simp only [countTransientFrom, h, if_true]
      rw [ih (i + 1) (made + 1) (sleeps + 1) (some (o i))]
      omega
    · rw [if_neg h]
      simp [countTransientFrom, h]

/-! ### Claims about the sender -/

/-- C2: for every retry policy with `RetryAttempts ≥ 1`, `DefaultSender.Send`
issues at most `RetryAttempts` transport attempts when every response status
is in the transient set, and issues exactly one attempt — returning that
first outcome immediately — when the first attempt yields a transport-level
error or a response whose status is not in the transient set. -/
theorem DefaultSender_Send_attempt_bounds (ds : DefaultSender) (o : Nat → AttemptOutcome)
    (h : 1 ≤ ds.RetryAttempts) :
    ((∀ i, isTransient ds.ValidStatusCodes (o i) = true) →
        (ds.Send o).attemptsMade ≤ ds.RetryAttempts)
    ∧ (isTransient ds.ValidStatusCodes (o 0) = false →
        (ds.Send o).attemptsMade = 1 ∧ (ds.Send o).final = some (o 0)) := by
  constructor
  · intro hall
    have he := sendLoop_all_transient ds.ValidStatusCodes o hall ds.RetryAttempts 0 0 0 none
    simp [DefaultSender.Send, he]
  · intro h0
    obtain ⟨n, hn⟩ : ∃ n, ds.RetryAttempts = n + 1 := ⟨ds.RetryAttempts - 1, by omega⟩
    simp [DefaultSender.Send, hn, sendLoop, h0]

/-- Witness for C2: a sender with five permitted attempts returns after a
single attempt when the first response status 200 is not transient. -/
theorem DefaultSender_Send_attempt_bounds_witness :
    ((⟨5, 5, [500]⟩ : DefaultSender).Send (fun _ => .response 200)).attemptsMade = 1 ∧
    ((⟨5, 5, [500]⟩ : DefaultSender).Send (fun _ => .response 200)).final
      = some (.response 200) :=
  (DefaultSender_Send_attempt_bounds ⟨5, 5, [500]⟩ (fun _ => .response 200) (by decide)).2 rfl

/-- C3 counterexample: the claim that backoff is applied only between two
consecutive attempts and never after the final attempt — formally, that the
number of backoff sleeps is strictly below the number of attempts — fails:
with a budget of one attempt and a transient response status 500, `Send`
issues one attempt and sleeps once before returning. -/
theorem DefaultSender_Send_no_sleep_after_final_cex :
    ¬ (∀ (ds : DefaultSender) (o : Nat → AttemptOutcome), 1 ≤ ds.RetryAttempts →
        (ds.Send o).sleeps < (ds.Send o).attemptsMade) := by
  intro hcl
  have h := hcl ⟨1, 5, [500]⟩ (fun _ => .response 500) (by decide)
  have he : (DefaultSender.Send ⟨1, 5, [500]⟩ (fun _ => .response 500))
      = ⟨1, 1, some (.response 500)⟩ := rfl
  rw [he] at h
  exact absurd h (by decide)

/-- C3 (amended): the backoff delay is applied exactly once after every
transport attempt whose response status is in the transient set — including
the final permitted attempt, which sleeps before its transient response is
returned — and never after an attempt that yields a transport error or a
non-transient status: the number of sleeps equals the number of transient
outcomes among the attempts made. -/
theorem DefaultSender_Send_backoff_per_transient (ds : DefaultSender)
    (o : Nat → AttemptOutcome) :
    (ds.Send o).sleeps
      = countTransientFrom ds.ValidStatusCodes o 0 (ds.Send o).attemptsMade := by
  have h := sendLoop_sleeps ds.ValidStatusCodes o ds.RetryAttempts 0 0 0 none
  simpa [DefaultSender.Send] using h


/-! ### Claims about the response classifier -/

/-- C7: for every completed response handed to the classifier, a status
code below 400 yields success with the body passed through unread and no
error, and a status code in 400..505 yields failure: the body is fully
consumed (and restored from memory) and an error is returned alongside
the response. -/
theorem exec_classification (resp : HttpResponse) :
    (resp.statusCode < 400 →
        exec resp = (⟨resp.statusCode, resp.headers, .original resp.body⟩, none))
    ∧ (400 ≤ resp.statusCode → resp.statusCode ≤ 505 →
        (exec resp).1.statusCode = resp.statusCode
        ∧ (exec resp).1.body = .restored resp.body.text
        ∧ (exec resp).2.isSome = true) := by
  constructor
  · intro h
    have hc : ¬ (400 ≤ resp.statusCode ∧ resp.statusCode ≤ 505) := by omega
    simp [exec, hc]
  · intro h1 h2
    have hc : 400 ≤ resp.statusCode ∧ resp.statusCode ≤ 505 := ⟨h1, h2⟩
    simp [exec, hc]

/-- Witness for C7 at the concrete 404 response. -/
theorem exec_classification_witness :
    (exec respW7).1.statusCode = respW7.statusCode
    ∧ (exec respW7).1.body = .restored respW7.body.text
    ∧ (exec respW7).2.isSome = true :=
  (exec_classification respW7).2 (by decide) (by decide)

/-- C8: for a failure response with status 404, no content type and an
empty body, the classifier yields a normalized service error whose Code
holds the HTTP status text, whose Message is the fixed no-body
diagnostic, and whose StatusCode, RequestID, Date and APIVersion come
from the status code and the debug headers. -/
theorem exec_emptyBody_404 (resp : HttpResponse)
    (h1 : resp.statusCode = 404) (h2 : resp.headers.contentType = "")
    (h3 : resp.body.text = "") :
    (exec resp).2 = some (.storageError
      { AzureStorageServiceError.zero with
        StatusCode := 404
        Code := resp.status
        RequestID := resp.headers.requestID
        Date := resp.headers.date
        APIVersion := resp.headers.version
        Message := "no response body was available for error status code" }) := by
  simp [exec, h1, h3, serviceErrFromStatusCode, getDebugHeaders]

/-- Witness for C8 at the concrete 404 response. -/
theorem exec_emptyBody_404_witness :
    (exec respW7).2 = some (.storageError
      { AzureStorageServiceError.zero with
        StatusCode := 404
        Code := respW7.status
        RequestID := respW7.headers.requestID
        Date := respW7.headers.date
        APIVersion := respW7.headers.version
        Message := "no response body was available for error status code" }) :=
  exec_emptyBody_404 respW7 rfl rfl rfl

/-- C10: a completed response whose status code is strictly greater than
505 is treated by the classifier as success: the response comes back
with no error and its body passed through unread, even though such a
status is not a success status. -/
theorem exec_above_505 (resp : HttpResponse) (h : 505 < resp.statusCode) :
    exec resp = (⟨resp.statusCode, resp.headers, .original resp.body⟩, none) := by
  have hc : ¬ (400 ≤ resp.statusCode ∧ resp.statusCode ≤ 505) := by omega
  simp [exec, hc]

/-- Witness for C10 at the concrete 506 response. -/
theorem exec_above_505_witness :
    exec respW10 = (⟨respW10.statusCode, respW10.headers, .original respW10.body⟩, none) :=
  exec_above_505 respW10 (by decide)

/-! ### Claims about error decoding -/

/-- C4 counterexample: it is not true that every failed exchange with a
non-empty malformed body hands the caller a normalized
`AzureStorageServiceError`: in the internal OData JSON path
(`execInternalJSONCommon`, reached by table operations and batch
operations) a malformed JSON body surfaces the raw decoder error
itself. -/
theorem execInternalJSONCommon_raw_decode_error_cex :
    ¬ (∀ (resp : HttpResponse), 400 ≤ resp.statusCode → resp.statusCode ≤ 505 →
        resp.body.text ≠ "" → (∃ e, resp.body.jsonOData = Except.error e) →
        ∀ err, (execInternalJSONCommon resp).2 = some err →
          ∃ se, err = GoError.storageError se) := by
  intro hcl
  have h := hcl respC4 (by decide) (by decide) (by decide)
    ⟨"invalid character I looking for beginning of value", rfl⟩
    (.rawError "invalid character I looking for beginning of value") rfl
  obtain ⟨se, hse⟩ := h
  exact GoError.noConfusion hse

/-- C4 (amended): in the classifier path `exec` — the declared XML
decode path and its JSON fallback — a failed exchange with a non-empty
body that is malformed for the declared decode path never surfaces the
raw parse fault: the caller receives an `AzureStorageServiceError`
whose message embeds the parse diagnostic and the raw body text.  (The
internal OData JSON path `execInternalJSONCommon` does not share this
behavior: it returns the raw decoder error, see the counterexample.) -/
theorem exec_decode_failure_normalized (resp : HttpResponse)
    (h1 : 400 ≤ resp.statusCode) (h2 : resp.statusCode ≤ 505)
    (h3 : resp.body.text ≠ "")
    (hdec : if resp.headers.contentType = "application/xml"
        then ∃ e, resp.body.xmlStorage = Except.error e
        else ∃ e, resp.body.jsonOData = Except.error e) :
    ∃ se, (exec resp).2 = some (.storageError se)
      ∧ ∃ diag, se.Message = unmarshalFailMessage diag resp.body.text := by
  have hc : 400 ≤ resp.statusCode ∧ resp.statusCode ≤ 505 := ⟨h1, h2⟩
  by_cases hct : resp.headers.contentType = "application/xml"
  · rw [if_pos hct] at hdec
    obtain ⟨e, hx⟩ := hdec
    have hres : (exec resp).2 = some (.storageError
        { AzureStorageServiceError.zero with
          StatusCode := resp.statusCode
          RequestID := resp.headers.requestID
          Date := resp.headers.date
          APIVersion := resp.headers.version
          Message := unmarshalFailMessage e resp.body.text }) := by
      simp [exec, hc, h3, hct, serviceErrFromXML, hx, getDebugHeaders]
    exact ⟨_, hres, e, rfl⟩
  · rw [if_neg hct] at hdec
    obtain ⟨e, hj⟩ := hdec
    have hres : (exec resp).2 = some (.storageError
        { AzureStorageServiceError.zero with
          StatusCode := resp.statusCode
          RequestID := resp.headers.requestID
          Date := resp.headers.date
          APIVersion := resp.headers.version
          Message := unmarshalFailMessage e resp.body.text }) := by
      simp [exec, hc, h3, hct, serviceErrFromJSON, hj, getDebugHeaders]
    exact ⟨_, hres, e, rfl⟩

/-- Witness for the amended C4 at the concrete malformed-JSON 400
response. -/
theorem exec_decode_failure_normalized_witness :
    ∃ se, (exec respC4).2 = some (.storageError se)
      ∧ ∃ diag, se.Message = unmarshalFailMessage diag respC4.body.text :=
  exec_decode_failure_normalized respC4 (by decide) (by decide) (by decide)
    (by rw [if_neg (by decide)]
        exact ⟨"invalid character I looking for beginning of value", rfl⟩)

/-! ### Claims about the batch parser -/

/-- C1: for every two-level multipart batch response — outer status a
success status, media-type parse, outer part read, changeset boundary
parse, inner part read and embedded-response reconstruction all
succeeding — the parser returns success; when the embedded response has
status 204 the envelope keeps the outer status and carries no decoded
OData error, and when the embedded response has any other status with a
well-formed OData JSON body the envelope status becomes the embedded
status and the decoded error is the decoded body envelope (so its code
and message are those of the inner body). -/
theorem execBatchOperationJSON_changeset (resp : BatchHttpResponse)
    (h1 : resp.httpResp.statusCode < 400)
    (bh : List (String × String)) (h2 : resp.mediaParams = .ok bh)
    (bp : BatchPart) (h3 : resp.batchBody.nextPart = .ok bp)
    (ch : List (String × String)) (h4 : bp.mediaParams = .ok ch)
    (inner : InnerPart) (h5 : bp.nextPart = .ok inner)
    (er : EmbeddedResponse) (h6 : inner.readResponse = .ok er) :
    (er.statusCode = 204 →
        execBatchOperationJSON resp = .ok
          ⟨resp.httpResp.statusCode, resp.httpResp.headers,
            .original resp.httpResp.body, odataErrorWrapper.zero⟩)
    ∧ (∀ w, er.statusCode ≠ 204 → er.body.jsonOData = .ok w →
        execBatchOperationJSON resp = .ok
          ⟨er.statusCode, resp.httpResp.headers,
            .original resp.httpResp.body, w⟩) := by
  have hc : ¬ (400 ≤ resp.httpResp.statusCode ∧ resp.httpResp.statusCode ≤ 505) := by
    omega
  have hcommon : execInternalJSONCommon resp.httpResp
      = (⟨resp.httpResp.statusCode, resp.httpResp.headers,
          .original resp.httpResp.body, odataErrorWrapper.zero⟩, none) := by
    simp [execInternalJSONCommon, hc]
  constructor
  · intro h204
    simp [execBatchOperationJSON, hcommon, h2, h3, h4, h5, h6,
      genBatchReader, genChangesetReader, h204]
  · intro w hne hok
    simp [execBatchOperationJSON, hcommon, h2, h3, h4, h5, h6,
      genBatchReader, genChangesetReader, hne, hok]

/-- Witness for C1 at the concrete 204 batch response. -/
theorem execBatchOperationJSON_changeset_witness :
    execBatchOperationJSON batchRespW1 = .ok
      ⟨batchRespW1.httpResp.statusCode, batchRespW1.httpResp.headers,
        .original batchRespW1.httpResp.body, odataErrorWrapper.zero⟩ :=
  (execBatchOperationJSON_changeset batchRespW1 (by decide)
    _ rfl _ rfl _ rfl _ rfl _ rfl).1 rfl

/-! ### Claims about account SAS generation -/

theorem effectiveOptions_Services (c : Client) (o : AccountSASTokenOptions) :
    (effectiveOptions c o).Services = o.Services := by
  unfold effectiveOptions; split <;> rfl

theorem effectiveOptions_ResourceTypes (c : Client) (o : AccountSASTokenOptions) :
    (effectiveOptions c o).ResourceTypes = o.ResourceTypes := by
  unfold effectiveOptions; split <;> rfl

theorem effectiveOptions_Permissions (c : Client) (o : AccountSASTokenOptions) :
    (effectiveOptions c o).Permissions = o.Permissions := by
  unfold effectiveOptions; split <;> rfl

theorem effectiveOptions_Start (c : Client) (o : AccountSASTokenOptions) :
    (effectiveOptions c o).Start = o.Start := by
  unfold effectiveOptions; split <;> rfl

theorem effectiveOptions_Expiry (c : Client) (o : AccountSASTokenOptions) :
    (effectiveOptions c o).Expiry = o.Expiry := by
  unfold effectiveOptions; split <;> rfl

theorem effectiveOptions_IP (c : Client) (o : AccountSASTokenOptions) :
    (effectiveOptions c o).IP = o.IP := by
  unfold effectiveOptions; split <;> rfl

theorem effectiveOptions_UseHTTPS (c : Client) (o : AccountSASTokenOptions) :
    (effectiveOptions c o).UseHTTPS = o.UseHTTPS := by
  unfold effectiveOptions; split <;> rfl

theorem effectiveOptions_APIVersion (c : Client) (o : AccountSASTokenOptions) :
    (effectiveOptions c o).APIVersion
      = if o.APIVersion = "" then c.apiVersion else o.APIVersion := by
  unfold effectiveOptions; split <;> rfl

theorem servicesString_chars (s : Services) :
    (servicesString s).data = ['b', 'q', 't', 'f'].filter (enabledServiceChar s) := by
  obtain ⟨b, q, t, f⟩ := s
  cases b <;> cases q <;> cases t <;> cases f <;> decide

theorem resourceTypesString_chars (r : ResourceTypes) :
    (resourceTypesString r).data = ['s', 'c', 'o'].filter (enabledResourceChar r) := by
  obtain ⟨s, c, o⟩ := r
  cases s <;> cases c <;> cases o <;> decide

theorem permissionsString_chars (p : Permissions) :
    (permissionsString p).data
      = ['r', 'w', 'd', 'l', 'a', 'c', 'u', 'p'].filter (enabledPermissionChar p) := by
  obtain ⟨r, w, d, l, a, c, u, pr⟩ := p
  cases r <;> cases w <;> cases d <;> cases l <;> cases a <;> cases c <;> cases u <;>
    cases pr <;> decide

theorem formatRFC3339_data_ne_nil (t : GoTime) : t.formatRFC3339.data ≠ [] := by
  unfold GoTime.formatRFC3339
  simp [String.data_append, show "Z".data = ['Z'] from rfl]

theorem goSlice_format_ne_empty (t : GoTime) : goSlice t.formatRFC3339 10 ≠ "" := by
  intro h
  have h2 : t.formatRFC3339.data.take 10 = [] := congrArg String.data h
  rw [List.take_eq_nil_iff] at h2
  rcases h2 with h2 | h2
  · exact absurd h2 (by decide)
  · exact formatRFC3339_data_ne_nil t h2

theorem startString_empty_iff (o : AccountSASTokenOptions) :
    startString o = "" ↔ o.Start = GoTime.zero := by
  unfold startString
  by_cases h : o.Start = GoTime.zero
  · simp [h]
  · rw [if_pos h]
    exact iff_of_false (goSlice_format_ne_empty o.Start) h

theorem GetAccountSASToken_eval (c : Client) (o : AccountSASTokenOptions)
    (hv : goStringLt (effectiveOptions c o).APIVersion "2015-04-05" = false) :
    GetAccountSASToken c o =
      ([("sv", (effectiveOptions c o).APIVersion),
        ("ss", servicesString o.Services),
        ("srt", resourceTypesString o.ResourceTypes),
        ("sp", permissionsString o.Permissions),
        ("se", expiryString o),
        ("spr", protocolString o),
        ("sig", c.hmac (accountSASStringToSign c (effectiveOptions c o)))]
        ++ (if o.Start = GoTime.zero then [] else [("st", startString o)])
        ++ (if o.IP = "" then [] else [("sip", o.IP)]), none) := by
  have hE : expiryString (effectiveOptions c o) = expiryString o := by
    simp only [expiryString, effectiveOptions_Expiry]
  have hPr : protocolString (effectiveOptions c o) = protocolString o := by
    simp only [protocolString, effectiveOptions_UseHTTPS]
  have hst : startString (effectiveOptions c o) = startString o := by
    simp only [startString, effectiveOptions_Start]
  simp only [GetAccountSASToken, hv, Bool.false_eq_true, if_false,
    effectiveOptions_Services, effectiveOptions_ResourceTypes, effectiveOptions_Permissions,
    effectiveOptions_IP, hE, hPr, hst]
  by_cases hz : o.Start = GoTime.zero
  · have hse : startString o = "" := (startString_empty_iff o).mpr hz
    rw [hse]
    by_cases hi : o.IP = "" <;> simp [hz, hi]
  · have hne : startString o ≠ "" := fun hh => hz ((startString_empty_iff o).mp hh)
    by_cases hi : o.IP = "" <;> simp [hz, hi, hne]

/-- C5: for every flag combination (under a supported API version), the
token values under `ss`, `srt` and `sp` consist of exactly the canonical
characters of the enabled flags — order b,q,t,f for services, s,c,o for
resource types, r,w,d,l,a,c,u,p for permissions, each enabled character
exactly once, disabled characters absent — and the token keys are
exactly sv, ss, srt, sp, se, spr, sig, plus st only when a start time is
present and sip only when an IP restriction is present. -/
theorem GetAccountSASToken_token_shape (c : Client) (o : AccountSASTokenOptions)
    (h : goStringLt (if o.APIVersion = "" then c.apiVersion else o.APIVersion)
        "2015-04-05" = false) :
    (∃ ss, getParam (GetAccountSASToken c o).1 "ss" = some ss
        ∧ ss.data = ['b', 'q', 't', 'f'].filter (enabledServiceChar o.Services))
    ∧ (∃ srt, getParam (GetAccountSASToken c o).1 "srt" = some srt
        ∧ srt.data = ['s', 'c', 'o'].filter (enabledResourceChar o.ResourceTypes))
    ∧ (∃ sp, getParam (GetAccountSASToken c o).1 "sp" = some sp
        ∧ sp.data = ['r', 'w', 'd', 'l', 'a', 'c', 'u', 'p'].filter
            (enabledPermissionChar o.Permissions))
    ∧ (GetAccountSASToken c o).1.map Prod.fst
        = ["sv", "ss", "srt", "sp", "se", "spr", "sig"]
          ++ (if o.Start = GoTime.zero then [] else ["st"])
          ++ (if o.IP = "" then [] else ["sip"]) := by
  have hv : goStringLt (effectiveOptions c o).APIVersion "2015-04-05" = false := by
    rw [effectiveOptions_APIVersion]; exact h
  have he := GetAccountSASToken_eval c o hv
  refine ⟨⟨servicesString o.Services, ?_, servicesString_chars o.Services⟩,
    ⟨resourceTypesString o.ResourceTypes, ?_, resourceTypesString_chars o.ResourceTypes⟩,
    ⟨permissionsString o.Permissions, ?_, permissionsString_chars o.Permissions⟩, ?_⟩
  · rw [he]; exact rfl
  · rw [he]; exact rfl
  · rw [he]; exact rfl
  · rw [he]
    by_cases hz : o.Start = GoTime.zero <;> by_cases hi : o.IP = "" <;> simp [hz, hi]

/-- Witness for C5 at the concrete options. -/
theorem GetAccountSASToken_token_shape_witness :
    (∃ ss, getParam (GetAccountSASToken clientW optsW5).1 "ss" = some ss
        ∧ ss.data = ['b', 'q', 't', 'f'].filter (enabledServiceChar optsW5.Services))
    ∧ (∃ srt, getParam (GetAccountSASToken clientW optsW5).1 "srt" = some srt
        ∧ srt.data = ['s', 'c', 'o'].filter (enabledResourceChar optsW5.ResourceTypes))
    ∧ (∃ sp, getParam (GetAccountSASToken clientW optsW5).1 "sp" = some sp
        ∧ sp.data = ['r', 'w', 'd', 'l', 'a', 'c', 'u', 'p'].filter
            (enabledPermissionChar optsW5.Permissions))
    ∧ (GetAccountSASToken clientW optsW5).1.map Prod.fst
        = ["sv", "ss", "srt", "sp", "se", "spr", "sig"]
          ++ (if optsW5.Start = GoTime.zero then [] else ["st"])
          ++ (if optsW5.IP = "" then [] else ["sip"]) :=
  GetAccountSASToken_token_shape clientW optsW5 (by decide)

/-- C6: the expiry value placed in the signing string and under the `se`
key, and the start value placed in the signing string and under the `st`
key, are the first ten characters of the RFC3339 rendering of the
respective time; a zero-value start time contributes an empty field to
the signing string and the `st` key is omitted from the token. -/
theorem GetAccountSASToken_time_truncation (c : Client) (o : AccountSASTokenOptions)
    (h : goStringLt (if o.APIVersion = "" then c.apiVersion else o.APIVersion)
        "2015-04-05" = false) :
    accountSASStringToSign c (effectiveOptions c o)
      = String.intercalate "\n"
          [c.accountName, permissionsString o.Permissions, servicesString o.Services,
            resourceTypesString o.ResourceTypes,
            (if o.Start = GoTime.zero then ""
              else String.mk (o.Start.formatRFC3339.data.take 10)),
            String.mk (o.Expiry.formatRFC3339.data.take 10),
            o.IP, protocolString o, (effectiveOptions c o).APIVersion, ""]
    ∧ getParam (GetAccountSASToken c o).1 "se"
        = some (String.mk (o.Expiry.formatRFC3339.data.take 10))
    ∧ (o.Start = GoTime.zero → getParam (GetAccountSASToken c o).1 "st" = none)
    ∧ (o.Start ≠ GoTime.zero → getParam (GetAccountSASToken c o).1 "st"
        = some (String.mk (o.Start.formatRFC3339.data.take 10))) := by
  have hv : goStringLt (effectiveOptions c o).APIVersion "2015-04-05" = false := by
    rw [effectiveOptions_APIVersion]; exact h
  have he := GetAccountSASToken_eval c o hv
  refine ⟨?_, ?_, ?_, ?_⟩
  · simp only [accountSASStringToSign, effectiveOptions_Permissions,
      effectiveOptions_Services, effectiveOptions_ResourceTypes, effectiveOptions_Start,
      effectiveOptions_Expiry, effectiveOptions_IP, effectiveOptions_UseHTTPS,
      startString, expiryString, goSlice, protocolString]
    by_cases hz : o.Start = GoTime.zero <;> simp [hz]
  · rw [he]; exact rfl
  · intro hz
    rw [he]
    by_cases hi : o.IP = "" <;> simp [hz, hi, getParam]
  · intro hnz
    rw [he]
    have hs : startString o = String.mk (o.Start.formatRFC3339.data.take 10) := by
      simp only [startString, goSlice, if_pos hnz]
    by_cases hi : o.IP = "" <;> simp [hnz, hi, getParam, hs]

/-- Witness for C6 at the concrete options with a non-zero start time. -/
theorem GetAccountSASToken_time_truncation_witness :
    getParam (GetAccountSASToken clientW optsW5).1 "se"
        = some (String.mk (optsW5.Expiry.formatRFC3339.data.take 10))
    ∧ getParam (GetAccountSASToken clientW optsW5).1 "st"
        = some (String.mk (optsW5.Start.formatRFC3339.data.take 10)) :=
  ⟨(GetAccountSASToken_time_truncation clientW optsW5 (by decide)).2.1,
    (GetAccountSASToken_time_truncation clientW optsW5 (by decide)).2.2.2 (by decide)⟩

/-- C9: with an effective API version lexicographically below 2015-04-05
the generation fails — empty token and a configuration error naming the
version — and with an effective version at or above the minimum it
succeeds with no error. -/
theorem GetAccountSASToken_versionCheck (c : Client) (o : AccountSASTokenOptions) :
    (goStringLt (if o.APIVersion = "" then c.apiVersion else o.APIVersion)
          "2015-04-05" = true →
        GetAccountSASToken c o
          = ([], some
              ("account SAS does not support API versions prior to 2015-04-05. API version : "
                ++ (if o.APIVersion = "" then c.apiVersion else o.APIVersion))))
    ∧ (goStringLt (if o.APIVersion = "" then c.apiVersion else o.APIVersion)
          "2015-04-05" = false →
        (GetAccountSASToken c o).2 = none) := by
  constructor
  · intro h
    have hv : goStringLt (effectiveOptions c o).APIVersion "2015-04-05" = true := by
      rw [effectiveOptions_APIVersion]; exact h
    simp only [GetAccountSASToken, hv, if_true]
    rw [effectiveOptions_APIVersion]
  · intro h
    have hv : goStringLt (effectiveOptions c o).APIVersion "2015-04-05" = false := by
      rw [effectiveOptions_APIVersion]; exact h
    rw [GetAccountSASToken_eval c o hv]

/-- Witness for C9: the old version is rejected with the configuration
error. -/
theorem GetAccountSASToken_versionCheck_witness :
    GetAccountSASToken clientW optsW9
      = ([], some
          ("account SAS does not support API versions prior to 2015-04-05. API version : "
            ++ (if optsW9.APIVersion = "" then clientW.apiVersion else optsW9.APIVersion))) :=
  (GetAccountSASToken_versionCheck clientW optsW9).1 (by decide)
